import Mathlib

/-!
Verification of the EDEA diagram-server core (ProjectEDEA/EDEA-server).

Shallow embedding conventions:

* Rust `String` values are represented by their UTF-8 byte sequences, as
  `List Nat` with every element below 256.  `String::from_utf8` is modelled
  by a byte-level UTF-8 validity check (`from_utf8`), and `str.as_bytes()`
  is the identity on this representation.  ASCII string constants are
  written as character lists mapped through `Char.toNat`.
* The `HashMap<String, File>` store is modelled as an association list
  (`Store`), with insert/remove/lookup mirroring map semantics.  HashMap
  iteration order is implementation-defined; the model iterates in list
  order, which is one admissible order.
* Machine integers are `Nat`/`Int`; the `as u32` / `as i32` casts of the
  source appear as explicit `% 2 ^ 32` truncations (`u32be`, `i64_to_i32`).
* The prost-generated protobuf payload codec for `File` comes from
  `proto/class.proto`, which is not part of the source tree here; it is
  modelled from the spec (§4.2) as a self-describing length-prefixed
  binary scheme, which the spec explicitly allows.
* gRPC handlers are modelled as pure functions from the store and the
  request to the new store and the response; the lock-poisoning branches
  (`LockUnavailable`) are unreachable in a sequential model and are not
  represented.
-/

namespace EDEA

/-- ASCII helper: a Rust string literal as its UTF-8 (= ASCII) byte list. -/
def ascii (cs : List Char) : List Nat := cs.map Char.toNat

/-! ## JSON values (serde_json::Value)

Numbers: serde_json distinguishes integer numbers from floats; every
accessor used by the source (`as_i64`, `as_u64`, `as_str`, `as_bool`,
`as_array`, `get`) returns `None` on a float, so the float payload itself
is irrelevant and is not carried. -/

/-- The serde_json::Value tree, with strings as UTF-8 byte lists. -/
inductive Json where
  | null
  | bool (b : Bool)
  | num (n : Int)
  | floatNum
  | str (s : List Nat)
  | arr (elems : List Json)
  | obj (fields : List (List Nat × Json))

/-- Value::get on an object: first binding for the key; None on non-objects. -/
def Json.get (j : Json) (key : List Nat) : Option Json :=
  match j with
  | .obj fields => List.lookup key fields
  | _ => none

/-- Value::as_str. -/
def Json.as_str : Json → Option (List Nat)
  | .str s => some s
  | _ => none

/-- Value::as_bool. -/
def Json.as_bool : Json → Option Bool
  | .bool b => some b
  | _ => none

/-- Value::as_i64: integer numbers in the signed 64-bit range only. -/
def Json.as_i64 : Json → Option Int
  | .num n => if -(2 ^ 63) ≤ n ∧ n < 2 ^ 63 then some n else none
  | _ => none

/-- Value::as_u64: integer numbers in the unsigned 64-bit range only. -/
def Json.as_u64 : Json → Option Nat
  | .num n => if 0 ≤ n ∧ n < 2 ^ 64 then some n.toNat else none
  | _ => none

/-- Value::as_array. -/
def Json.as_array : Json → Option (List Json)
  | .arr xs => some xs
  | _ => none

/-- The Rust `as i32` cast on an `i64` value: wrap modulo `2 ^ 32` into
the signed 32-bit range. -/
def i64_to_i32 (n : Int) : Int :=
  let m := n % 4294967296
  if m < 2147483648 then m else m - 4294967296

/-! ## The document model (prost-generated structs from proto/class.proto) -/

/-- Message FileId. -/
structure FileId where
  id : List Nat
deriving DecidableEq

/-- Message Multiplicity: optional upper bound, `lower` is a u32. -/
structure Multiplicity where
  lower : Nat
  upper : Option Nat
deriving DecidableEq

/-- Message Variable: optional visibility code and optional is_static. -/
structure Variable where
  name : List Nat
  type : List Nat
  visibility : Option Int
  is_static : Option Bool
deriving DecidableEq

/-- Message Method: visibility code is required (plain i32). -/
structure Method where
  name : List Nat
  return_type : List Nat
  visibility : Int
  is_abstract : Option Bool
  is_static : Option Bool
  parameters : List Variable
deriving DecidableEq

/-- Message RelationInfo. -/
structure RelationInfo where
  target_class_id : List Nat
  relation : Int
  multiplicity_p : Option Multiplicity
  multiplicity_c : Option Multiplicity
  role_name_p : Option (List Nat)
  role_name_c : Option (List Nat)
deriving DecidableEq

/-- Message RelationInfoList. -/
structure RelationInfoList where
  relation_infos : List RelationInfo
deriving DecidableEq

/-- Message Class. -/
structure Class where
  id : List Nat
  name : List Nat
  relations : Option RelationInfoList
  attributes : List Variable
  methods : List Method
deriving DecidableEq

/-- Message File: the stored document. -/
structure File where
  last_modified : Int
  created_at : Int
  file_id : Option FileId
  name : List Nat
  classes : List Class
deriving DecidableEq

namespace Visibility

/-- Modelled from the spec: the visibility enum codes of proto/class.proto
(the .proto file is not under src/); §3 fixes the vocabulary
PUBLIC/PRIVATE/PROTECTED/NON_MODIFIER, assigned distinct codes in order. -/
def Public : Int := 0

/-- Visibility code PRIVATE. -/
def Private : Int := 1

/-- Visibility code PROTECTED. -/
def Protected : Int := 2

/-- Visibility code NON_MODIFIER, the documented default. -/
def NonModifier : Int := 3

end Visibility

namespace Relation

/-- Modelled from the spec: the relation-kind enum codes of
proto/class.proto (the .proto file is not under src/); §3 fixes the
vocabulary NONE/INHERITANCE/IMPLEMENTATION/ASSOCIATION/AGGREGATION/
COMPOSITION, assigned distinct codes in order. -/
def None : Int := 0

/-- Relation code INHERITANCE. -/
def Inheritance : Int := 1

/-- Relation code IMPLEMENTATION. -/
def Implementation : Int := 2

/-- Relation code ASSOCIATION. -/
def Association : Int := 3

/-- Relation code AGGREGATION. -/
def Aggregation : Int := 4

/-- Relation code COMPOSITION. -/
def Composition : Int := 5

end Relation

/-! ## String constants (JSON keys, enum vocabulary, response messages) -/

def kw_file_id : List Nat := ascii ['f', 'i', 'l', 'e', '_', 'i', 'd']
def kw_id : List Nat := ascii ['i', 'd']
def kw_name : List Nat := ascii ['n', 'a', 'm', 'e']
def kw_last_modified : List Nat :=
  ascii ['l', 'a', 's', 't', '_', 'm', 'o', 'd', 'i', 'f', 'i', 'e', 'd']
def kw_created_at : List Nat := ascii ['c', 'r', 'e', 'a', 't', 'e', 'd', '_', 'a', 't']
def kw_classes : List Nat := ascii ['c', 'l', 'a', 's', 's', 'e', 's']
def kw_attributes : List Nat := ascii ['a', 't', 't', 'r', 'i', 'b', 'u', 't', 'e', 's']
def kw_methods : List Nat := ascii ['m', 'e', 't', 'h', 'o', 'd', 's']
def kw_relations : List Nat := ascii ['r', 'e', 'l', 'a', 't', 'i', 'o', 'n', 's']
def kw_relation_infos : List Nat :=
  ascii ['r', 'e', 'l', 'a', 't', 'i', 'o', 'n', '_', 'i', 'n', 'f', 'o', 's']
def kw_visibility : List Nat :=
  ascii ['v', 'i', 's', 'i', 'b', 'i', 'l', 'i', 't', 'y']
def kw_is_static : List Nat := ascii ['i', 's', '_', 's', 't', 'a', 't', 'i', 'c']
def kw_is_abstract : List Nat :=
  ascii ['i', 's', '_', 'a', 'b', 's', 't', 'r', 'a', 'c', 't']
def kw_type : List Nat := ascii ['t', 'y', 'p', 'e']
def kw_return_type : List Nat :=
  ascii ['r', 'e', 't', 'u', 'r', 'n', '_', 't', 'y', 'p', 'e']
def kw_parameters : List Nat :=
  ascii ['p', 'a', 'r', 'a', 'm', 'e', 't', 'e', 'r', 's']
def kw_target_class_id : List Nat :=
  ascii ['t', 'a', 'r', 'g', 'e', 't', '_', 'c', 'l', 'a', 's', 's', '_', 'i', 'd']
def kw_relation : List Nat := ascii ['r', 'e', 'l', 'a', 't', 'i', 'o', 'n']
def kw_multiplicity_p : List Nat :=
  ascii ['m', 'u', 'l', 't', 'i', 'p', 'l', 'i', 'c', 'i', 't', 'y', '_', 'p']
def kw_multiplicity_c : List Nat :=
  ascii ['m', 'u', 'l', 't', 'i', 'p', 'l', 'i', 'c', 'i', 't', 'y', '_', 'c']
def kw_role_name_p : List Nat :=
  ascii ['r', 'o', 'l', 'e', '_', 'n', 'a', 'm', 'e', '_', 'p']
def kw_role_name_c : List Nat :=
  ascii ['r', 'o', 'l', 'e', '_', 'n', 'a', 'm', 'e', '_', 'c']
def kw_lower : List Nat := ascii ['l', 'o', 'w', 'e', 'r']
def kw_upper : List Nat := ascii ['u', 'p', 'p', 'e', 'r']

def sPUBLIC : List Nat := ascii ['P', 'U', 'B', 'L', 'I', 'C']
def sPRIVATE : List Nat := ascii ['P', 'R', 'I', 'V', 'A', 'T', 'E']
def sPROTECTED : List Nat := ascii ['P', 'R', 'O', 'T', 'E', 'C', 'T', 'E', 'D']
def sNON_MODIFIER : List Nat :=
  ascii ['N', 'O', 'N', '_', 'M', 'O', 'D', 'I', 'F', 'I', 'E', 'R']
def sNONE : List Nat := ascii ['N', 'O', 'N', 'E']
def sINHERITANCE : List Nat :=
  ascii ['I', 'N', 'H', 'E', 'R', 'I', 'T', 'A', 'N', 'C', 'E']
def sIMPLEMENTATION : List Nat :=
  ascii ['I', 'M', 'P', 'L', 'E', 'M', 'E', 'N', 'T', 'A', 'T', 'I', 'O', 'N']
def sASSOCIATION : List Nat :=
  ascii ['A', 'S', 'S', 'O', 'C', 'I', 'A', 'T', 'I', 'O', 'N']
def sAGGREGATION : List Nat :=
  ascii ['A', 'G', 'G', 'R', 'E', 'G', 'A', 'T', 'I', 'O', 'N']
def sCOMPOSITION : List Nat :=
  ascii ['C', 'O', 'M', 'P', 'O', 'S', 'I', 'T', 'I', 'O', 'N']
def sBOGUS : List Nat := ascii ['B', 'O', 'G', 'U', 'S']

def msg_saved : List Nat :=
  ascii ['C', 'l', 'a', 's', 's', ' ', 'd', 'i', 'a', 'g', 'r', 'a', 'm', ' ',
    's', 'a', 'v', 'e', 'd', ' ',
    's', 'u', 'c', 'c', 'e', 's', 's', 'f', 'u', 'l', 'l', 'y']
def msg_file_id_required : List Nat :=
  ascii ['F', 'i', 'l', 'e', ' ', 'I', 'D', ' ', 'i', 's', ' ',
    'r', 'e', 'q', 'u', 'i', 'r', 'e', 'd']
def msg_deleted : List Nat :=
  ascii ['C', 'l', 'a', 's', 's', ' ', 'd', 'i', 'a', 'g', 'r', 'a', 'm', ' ',
    'd', 'e', 'l', 'e', 't', 'e', 'd', ' ',
    's', 'u', 'c', 'c', 'e', 's', 's', 'f', 'u', 'l', 'l', 'y']
def msg_not_found : List Nat :=
  ascii ['F', 'i', 'l', 'e', ' ', 'n', 'o', 't', ' ', 'f', 'o', 'u', 'n', 'd']

/-! ## Wire translator, JSON → model (proxy.rs) -/

/-- proxy.rs json_to_proto_multiplicity: `as u32` casts modelled as
truncation modulo `2 ^ 32`. -/
def json_to_proto_multiplicity (json : Json) : Except (List Nat) Multiplicity :=
  let lower := (((json.get kw_lower).bind Json.as_u64).getD 0) % 4294967296
  let upper := ((json.get kw_upper).bind Json.as_u64).map (· % 4294967296)
  .ok { lower, upper }

/-- proxy.rs json_to_proto_variable: unrecognized visibility strings map to
NON_MODIFIER, but an absent or non-string visibility stays `none`. -/
def json_to_proto_variable (json : Json) : Except (List Nat) Variable :=
  let name := ((json.get kw_name).bind Json.as_str).getD []
  let type := ((json.get kw_type).bind Json.as_str).getD []
  let visibility := ((json.get kw_visibility).bind Json.as_str).bind fun v =>
    if v = sPUBLIC then some Visibility.Public
    else if v = sPRIVATE then some Visibility.Private
    else if v = sPROTECTED then some Visibility.Protected
    else some Visibility.NonModifier
  let is_static := (json.get kw_is_static).bind Json.as_bool
  .ok { name, type, visibility, is_static }

/-- proxy.rs json_to_proto_method: unlike variables, an absent visibility is
defaulted to NON_MODIFIER by the final `unwrap_or`. -/
def json_to_proto_method (json : Json) : Except (List Nat) Method :=
  let name := ((json.get kw_name).bind Json.as_str).getD []
  let return_type := ((json.get kw_return_type).bind Json.as_str).getD []
  let visibility := (((json.get kw_visibility).bind Json.as_str).bind fun v =>
    if v = sPUBLIC then some Visibility.Public
    else if v = sPRIVATE then some Visibility.Private
    else if v = sPROTECTED then some Visibility.Protected
    else some Visibility.NonModifier).getD Visibility.NonModifier
  let is_abstract := (json.get kw_is_abstract).bind Json.as_bool
  let is_static := (json.get kw_is_static).bind Json.as_bool
  let parameters := (((json.get kw_parameters).bind Json.as_array).map fun params =>
    params.filterMap fun param => (json_to_proto_variable param).toOption).getD []
  .ok { name, return_type, visibility, is_abstract, is_static, parameters }

/-- proxy.rs json_to_proto_relation: unrecognized relation strings and an
absent relation key both map to the NONE code. -/
def json_to_proto_relation (json : Json) : Except (List Nat) RelationInfo :=
  let target_class_id := ((json.get kw_target_class_id).bind Json.as_str).getD []
  let relation := (((json.get kw_relation).bind Json.as_str).bind fun v =>
    if v = sINHERITANCE then some Relation.Inheritance
    else if v = sIMPLEMENTATION then some Relation.Implementation
    else if v = sASSOCIATION then some Relation.Association
    else if v = sAGGREGATION then some Relation.Aggregation
    else if v = sCOMPOSITION then some Relation.Composition
    else some Relation.None).getD Relation.None
  let multiplicity_p := (json.get kw_multiplicity_p).bind fun v =>
    (json_to_proto_multiplicity v).toOption
  let multiplicity_c := (json.get kw_multiplicity_c).bind fun v =>
    (json_to_proto_multiplicity v).toOption
  let role_name_p := (json.get kw_role_name_p).bind Json.as_str
  let role_name_c := (json.get kw_role_name_c).bind Json.as_str
  .ok { target_class_id, relation, multiplicity_p, multiplicity_c,
        role_name_p, role_name_c }

/-- proxy.rs json_to_proto_class: malformed entries of the nested arrays
would be dropped by filter_map; `relations` stays `none` when the
relations/relation_infos path is missing. -/
def json_to_proto_class (json : Json) : Except (List Nat) Class :=
  let id := ((json.get kw_id).bind Json.as_str).getD []
  let name := ((json.get kw_name).bind Json.as_str).getD []
  let attributes := (((json.get kw_attributes).bind Json.as_array).map fun attrs =>
    attrs.filterMap fun attr => (json_to_proto_variable attr).toOption).getD []
  let methods := (((json.get kw_methods).bind Json.as_array).map fun methods =>
    methods.filterMap fun method => (json_to_proto_method method).toOption).getD []
  let relations := (((json.get kw_relations).bind fun v =>
      v.get kw_relation_infos).bind Json.as_array).map fun rels =>
    RelationInfoList.mk (rels.filterMap fun rel => (json_to_proto_relation rel).toOption)
  .ok { id, name, relations, attributes, methods }

/-- proxy.rs json_to_proto_file: timestamps are read with as_i64 and cast
`as i32`; the file_id is always present in the result, defaulting to the
empty string. -/
def json_to_proto_file (json : Json) : Except (List Nat) File :=
  let file_id := (((json.get kw_file_id).bind fun v => v.get kw_id).bind
    Json.as_str).getD []
  let name := ((json.get kw_name).bind Json.as_str).getD []
  let last_modified := i64_to_i32 (((json.get kw_last_modified).bind Json.as_i64).getD 0)
  let created_at := i64_to_i32 (((json.get kw_created_at).bind Json.as_i64).getD 0)
  let classes := (((json.get kw_classes).bind Json.as_array).map fun classes =>
    classes.filterMap fun c => (json_to_proto_class c).toOption).getD []
  .ok { last_modified, created_at, file_id := some ⟨file_id⟩, name, classes }

/-! ## Wire translator, model → JSON (proxy.rs) -/

/-- serde_json serialization of an optional bool: None becomes null. -/
def jsonOfOptBool : Option Bool → Json
  | none => .null
  | some b => .bool b

/-- serde_json serialization of an optional string: None becomes null. -/
def jsonOfOptStr : Option (List Nat) → Json
  | none => .null
  | some s => .str s

/-- serde_json serialization of an optional u32: None becomes null. -/
def jsonOfOptNat : Option Nat → Json
  | none => .null
  | some n => .num n

/-- proxy.rs proto_multiplicity_to_json. -/
def proto_multiplicity_to_json (multiplicity : Multiplicity) : Json :=
  .obj [(kw_lower, .num multiplicity.lower), (kw_upper, jsonOfOptNat multiplicity.upper)]

/-- proxy.rs proto_variable_to_json: an absent visibility is emitted as the
string NON_MODIFIER; an absent is_static is emitted as null. -/
def proto_variable_to_json (vbl : Variable) : Json :=
  let visibility := (vbl.visibility.bind fun v =>
    if v = Visibility.Public then some sPUBLIC
    else if v = Visibility.Private then some sPRIVATE
    else if v = Visibility.Protected then some sPROTECTED
    else some sNON_MODIFIER).getD sNON_MODIFIER
  .obj [(kw_name, .str vbl.name), (kw_type, .str vbl.type),
    (kw_visibility, .str visibility), (kw_is_static, jsonOfOptBool vbl.is_static)]

/-- proxy.rs proto_method_to_json. -/
def proto_method_to_json (method : Method) : Json :=
  let visibility :=
    if method.visibility = Visibility.Public then sPUBLIC
    else if method.visibility = Visibility.Private then sPRIVATE
    else if method.visibility = Visibility.Protected then sPROTECTED
    else sNON_MODIFIER
  .obj [(kw_name, .str method.name), (kw_return_type, .str method.return_type),
    (kw_visibility, .str visibility),
    (kw_is_abstract, jsonOfOptBool method.is_abstract),
    (kw_is_static, jsonOfOptBool method.is_static),
    (kw_parameters, .arr (method.parameters.map proto_variable_to_json))]

/-- proxy.rs proto_relation_to_json: enum codes re-emitted as their
uppercase names, unknown codes as NONE. -/
def proto_relation_to_json (relation : RelationInfo) : Json :=
  let relation_type :=
    if relation.relation = Relation.Inheritance then sINHERITANCE
    else if relation.relation = Relation.Implementation then sIMPLEMENTATION
    else if relation.relation = Relation.Association then sASSOCIATION
    else if relation.relation = Relation.Aggregation then sAGGREGATION
    else if relation.relation = Relation.Composition then sCOMPOSITION
    else sNONE
  let multiplicity_p :=
    (relation.multiplicity_p.map proto_multiplicity_to_json).getD .null
  let multiplicity_c :=
    (relation.multiplicity_c.map proto_multiplicity_to_json).getD .null
  .obj [(kw_target_class_id, .str relation.target_class_id),
    (kw_relation, .str relation_type),
    (kw_multiplicity_p, multiplicity_p),
    (kw_multiplicity_c, multiplicity_c),
    (kw_role_name_p, jsonOfOptStr relation.role_name_p),
    (kw_role_name_c, jsonOfOptStr relation.role_name_c)]

/-- proxy.rs proto_class_to_json: an absent relations list is emitted as
null. -/
def proto_class_to_json (cls : Class) : Json :=
  let relations := (cls.relations.map fun rel =>
    Json.obj [(kw_relation_infos, .arr (rel.relation_infos.map proto_relation_to_json))]).getD .null
  .obj [(kw_id, .str cls.id), (kw_name, .str cls.name),
    (kw_attributes, .arr (cls.attributes.map proto_variable_to_json)),
    (kw_methods, .arr (cls.methods.map proto_method_to_json)),
    (kw_relations, relations)]

/-- proxy.rs proto_file_to_json: a missing file_id is emitted as an object
with the empty id string. -/
def proto_file_to_json (file : File) : Json :=
  let file_id := (file.file_id.map fun id =>
    Json.obj [(kw_id, .str id.id)]).getD (Json.obj [(kw_id, .str [])])
  .obj [(kw_last_modified, .num file.last_modified),
    (kw_created_at, .num file.created_at),
    (kw_file_id, file_id), (kw_name, .str file.name),
    (kw_classes, .arr (file.classes.map proto_class_to_json))]

/-! ## The store (server.rs, HashMap<String, File> behind a mutex) -/

/-- The in-memory store: an association list keyed by the document id
bytes, with at most one binding per key. -/
abbrev Store := List (List Nat × File)

/-- HashMap::insert — replace the binding in place if the key is present,
add it otherwise. -/
def storeInsert (s : Store) (k : List Nat) (v : File) : Store :=
  match s with
  | [] => [(k, v)]
  | (k', v') :: rest =>
    if k' = k then (k, v) :: rest else (k', v') :: storeInsert rest k v

/-- HashMap::remove, forgetting the returned value. -/
def storeRemove (s : Store) (k : List Nat) : Store :=
  match s with
  | [] => []
  | (k', v') :: rest => if k' = k then rest else (k', v') :: storeRemove rest k

/-- HashMap::get. -/
def storeLookup (s : Store) (k : List Nat) : Option File :=
  match s with
  | [] => none
  | (k', v') :: rest => if k' = k then some v' else storeLookup rest k

/-- The proto Result message {value, message}. -/
structure ProtoResult where
  value : Bool
  message : Option (List Nat)
deriving DecidableEq

/-- server.rs save_class_diagram: rejects only an absent file_id message;
any present file_id (its id string may be empty) is inserted. -/
def save_class_diagram (files : Store) (file : File) : Store × ProtoResult :=
  match file.file_id with
  | some file_id =>
    (storeInsert files file_id.id file, ⟨true, some msg_saved⟩)
  | none => (files, ⟨false, some msg_file_id_required⟩)

/-- server.rs delete_class_diagram: always a normal ProtoResult response;
value reports whether a binding was removed. -/
def delete_class_diagram (files : Store) (file_id : List Nat) : Store × ProtoResult :=
  let removed := (storeLookup files file_id).isSome
  (storeRemove files file_id,
   ⟨removed, some (if removed then msg_deleted else msg_not_found)⟩)

/-- server.rs is_existing_class_diagram: never an error, never mutates. -/
def is_existing_class_diagram (files : Store) (file_id : List Nat) : ProtoResult :=
  let exists_ := (storeLookup files file_id).isSome
  ⟨exists_, some (if exists_ then ascii ['F', 'i', 'l', 'e', ' ', 'e', 'x', 'i', 's', 't', 's']
    else ascii ['F', 'i', 'l', 'e', ' ', 'd', 'o', 'e', 's', ' ', 'n', 'o', 't', ' ',
      'e', 'x', 'i', 's', 't'])⟩

/-! ## Per-document payload codec

Modelled from the spec: the payload uses the prost protobuf encoding of
message File from proto/class.proto, which is not under src/; §4.2 allows
any self-describing binary scheme, so the model uses a length-prefixed
structural encoding and its matching tail-returning decoder. -/

/-- Variable-length base-128 encoding of a Nat (low digits first), with a
fuel argument for structural recursion; `encNat` supplies enough fuel. -/
def encNatAux : Nat → Nat → List Nat
  | 0, n => [n]
  | fuel + 1, n =>
    if n < 128 then [n] else (128 + n % 128) :: encNatAux fuel (n / 128)

/-- Variable-length base-128 encoding of a Nat (low digits first). -/
def encNat (n : Nat) : List Nat := encNatAux n n

/-- Decoder for `encNat`, returning the value and the unconsumed tail. -/
def decNat : List Nat → Option (Nat × List Nat)
  | [] => none
  | b :: rest =>
    if b < 128 then some (b, rest)
    else (decNat rest).map fun p => (b - 128 + 128 * p.1, p.2)

/-- Read exactly n bytes off the front of a buffer (io::Read::read_exact). -/
def readBytes : Nat → List Nat → Option (List Nat × List Nat)
  | 0, buf => some ([], buf)
  | _ + 1, [] => none
  | n + 1, b :: rest => (readBytes n rest).map fun p => (b :: p.1, p.2)

/-- Length-prefixed byte-string encoding. -/
def encBytes (bs : List Nat) : List Nat := encNat bs.length ++ bs

/-- Decoder for `encBytes`. -/
def decBytes (buf : List Nat) : Option (List Nat × List Nat) :=
  (decNat buf).bind fun p => readBytes p.1 p.2

/-- Signed integer encoding: a sign byte followed by the magnitude. -/
def encInt : Int → List Nat
  | .ofNat m => 0 :: encNat m
  | .negSucc m => 1 :: encNat m

/-- Decoder for `encInt`. -/
def decInt : List Nat → Option (Int × List Nat)
  | 0 :: rest => (decNat rest).map fun p => (Int.ofNat p.1, p.2)
  | 1 :: rest => (decNat rest).map fun p => (Int.negSucc p.1, p.2)
  | _ => none

/-- Boolean encoding. -/
def encBool (b : Bool) : List Nat := [if b then 1 else 0]

/-- Decoder for `encBool`. -/
def decBool : List Nat → Option (Bool × List Nat)
  | 0 :: rest => some (false, rest)
  | 1 :: rest => some (true, rest)
  | _ => none

/-- Optional-field encoding: a presence byte, then the value if present. -/
def encOpt (enc : α → List Nat) : Option α → List Nat
  | none => [0]
  | some x => 1 :: enc x

/-- Decoder for `encOpt`. -/
def decOpt (dec : List Nat → Option (α × List Nat)) :
    List Nat → Option (Option α × List Nat)
  | 0 :: rest => some (none, rest)
  | 1 :: rest => (dec rest).map fun p => (some p.1, p.2)
  | _ => none

/-- Sequence encoding: a count, then the encoded items. -/
def encList (enc : α → List Nat) (l : List α) : List Nat :=
  encNat l.length ++ l.flatMap enc

/-- Decode a counted number of items, threading the tail. -/
def decListN (dec : List Nat → Option (α × List Nat)) :
    Nat → List Nat → Option (List α × List Nat)
  | 0, buf => some ([], buf)
  | n + 1, buf => (dec buf).bind fun p =>
      (decListN dec n p.2).map fun q => (p.1 :: q.1, q.2)

/-- Decoder for `encList`. -/
def decList (dec : List Nat → Option (α × List Nat)) (buf : List Nat) :
    Option (List α × List Nat) :=
  (decNat buf).bind fun p => decListN dec p.1 p.2

/-- Payload encoding of Multiplicity. -/
def encMultiplicity (m : Multiplicity) : List Nat :=
  encNat m.lower ++ encOpt encNat m.upper

/-- Payload decoder for Multiplicity. -/
def decMultiplicity (buf : List Nat) : Option (Multiplicity × List Nat) :=
  (decNat buf).bind fun p =>
    (decOpt decNat p.2).map fun q => (⟨p.1, q.1⟩, q.2)

/-- Payload encoding of Variable. -/
def encVariable (v : Variable) : List Nat :=
  encBytes v.name ++ encBytes v.type ++ encOpt encInt v.visibility ++
    encOpt encBool v.is_static

/-- Payload decoder for Variable. -/
def decVariable (buf : List Nat) : Option (Variable × List Nat) :=
  (decBytes buf).bind fun p1 =>
    (decBytes p1.2).bind fun p2 =>
      (decOpt decInt p2.2).bind fun p3 =>
        (decOpt decBool p3.2).map fun p4 =>
          (⟨p1.1, p2.1, p3.1, p4.1⟩, p4.2)

/-- Payload encoding of Method. -/
def encMethod (m : Method) : List Nat :=
  encBytes m.name ++ encBytes m.return_type ++ encInt m.visibility ++
    encOpt encBool m.is_abstract ++ encOpt encBool m.is_static ++
    encList encVariable m.parameters

/-- Payload decoder for Method. -/
def decMethod (buf : List Nat) : Option (Method × List Nat) :=
  (decBytes buf).bind fun p1 =>
    (decBytes p1.2).bind fun p2 =>
      (decInt p2.2).bind fun p3 =>
        (decOpt decBool p3.2).bind fun p4 =>
          (decOpt decBool p4.2).bind fun p5 =>
            (decList decVariable p5.2).map fun p6 =>
              (⟨p1.1, p2.1, p3.1, p4.1, p5.1, p6.1⟩, p6.2)

/-- Payload encoding of RelationInfo. -/
def encRelationInfo (r : RelationInfo) : List Nat :=
  encBytes r.target_class_id ++ encInt r.relation ++
    encOpt encMultiplicity r.multiplicity_p ++
    encOpt encMultiplicity r.multiplicity_c ++
    encOpt encBytes r.role_name_p ++ encOpt encBytes r.role_name_c

/-- Payload decoder for RelationInfo. -/
def decRelationInfo (buf : List Nat) : Option (RelationInfo × List Nat) :=
  (decBytes buf).bind fun p1 =>
    (decInt p1.2).bind fun p2 =>
      (decOpt decMultiplicity p2.2).bind fun p3 =>
        (decOpt decMultiplicity p3.2).bind fun p4 =>
          (decOpt decBytes p4.2).bind fun p5 =>
            (decOpt decBytes p5.2).map fun p6 =>
              (⟨p1.1, p2.1, p3.1, p4.1, p5.1, p6.1⟩, p6.2)

/-- Payload encoding of RelationInfoList. -/
def encRelationInfoList (r : RelationInfoList) : List Nat :=
  encList encRelationInfo r.relation_infos

/-- Payload decoder for RelationInfoList. -/
def decRelationInfoList (buf : List Nat) : Option (RelationInfoList × List Nat) :=
  (decList decRelationInfo buf).map fun p => (⟨p.1⟩, p.2)

/-- Payload encoding of Class. -/
def encClass (c : Class) : List Nat :=
  encBytes c.id ++ encBytes c.name ++ encOpt encRelationInfoList c.relations ++
    encList encVariable c.attributes ++ encList encMethod c.methods

/-- Payload decoder for Class. -/
def decClass (buf : List Nat) : Option (Class × List Nat) :=
  (decBytes buf).bind fun p1 =>
    (decBytes p1.2).bind fun p2 =>
      (decOpt decRelationInfoList p2.2).bind fun p3 =>
        (decList decVariable p3.2).bind fun p4 =>
          (decList decMethod p4.2).map fun p5 =>
            (⟨p1.1, p2.1, p3.1, p4.1, p5.1⟩, p5.2)

/-- Payload encoding of FileId. -/
def encFileId (f : FileId) : List Nat := encBytes f.id

/-- Payload decoder for FileId. -/
def decFileId (buf : List Nat) : Option (FileId × List Nat) :=
  (decBytes buf).map fun p => (⟨p.1⟩, p.2)

/-- Payload encoding of File (prost Message::encode in the model). -/
def file_encode (f : File) : List Nat :=
  encInt f.last_modified ++ encInt f.created_at ++ encOpt encFileId f.file_id ++
    encBytes f.name ++ encList encClass f.classes

/-- Tail-returning payload decoder for File. -/
def decFile (buf : List Nat) : Option (File × List Nat) :=
  (decInt buf).bind fun p1 =>
    (decInt p1.2).bind fun p2 =>
      (decOpt decFileId p2.2).bind fun p3 =>
        (decBytes p3.2).bind fun p4 =>
          (decList decClass p4.2).map fun p5 =>
            (⟨p1.1, p2.1, p3.1, p4.1, p5.1⟩, p5.2)

/-- File::decode on an exact buffer (prost consumes the whole buffer). -/
def file_decode (buf : List Nat) : Option File :=
  match decFile buf with
  | some (f, []) => some f
  | _ => none

/-! ## String::from_utf8 (byte-level UTF-8 validity, RFC 3629) -/

/-- A UTF-8 continuation byte: 10xxxxxx. -/
def utf8_cont (b : Nat) : Bool := 128 ≤ b && b < 192

/-- UTF-8 validity of a byte sequence, fuelled by the list length; rejects
overlong forms, surrogates and lead bytes beyond U+10FFFF, as Rust's
String::from_utf8 does. -/
def utf8_valid_aux : Nat → List Nat → Bool
  | _, [] => true
  | 0, _ :: _ => false
  | fuel + 1, b :: rest =>
    if b < 128 then utf8_valid_aux fuel rest
    else if b < 194 then false
    else if b < 224 then
      match rest with
      | b1 :: rest1 => utf8_cont b1 && utf8_valid_aux fuel rest1
      | [] => false
    else if b < 240 then
      match rest with
      | b1 :: b2 :: rest2 =>
        utf8_cont b1 && utf8_cont b2 &&
          (decide (b ≠ 224) || decide (160 ≤ b1)) &&
          (decide (b ≠ 237) || decide (b1 < 160)) &&
          utf8_valid_aux fuel rest2
      | _ => false
    else if b < 245 then
      match rest with
      | b1 :: b2 :: b3 :: rest3 =>
        utf8_cont b1 && utf8_cont b2 && utf8_cont b3 &&
          (decide (b ≠ 240) || decide (144 ≤ b1)) &&
          (decide (b ≠ 244) || decide (b1 < 144)) &&
          utf8_valid_aux fuel rest3
      | _ => false
    else false

/-- UTF-8 validity of a whole byte sequence. -/
def utf8_valid (bs : List Nat) : Bool := utf8_valid_aux bs.length bs

/-- String::from_utf8: the same bytes on success (strings are represented
by their UTF-8 bytes), an error on invalid UTF-8. -/
def from_utf8 (bs : List Nat) : Option (List Nat) :=
  if utf8_valid bs then some bs else none

/-! ## Snapshot codec framing (server.rs save_to_disk / load_from_disk) -/

/-- Big-endian byte quadruple of `n as u32`: truncation modulo `2 ^ 32` is
built into the four byte extractions. -/
def u32be (n : Nat) : List Nat :=
  [n / 16777216 % 256, n / 65536 % 256, n / 256 % 256, n % 256]

/-- Read four bytes and combine them big-endian (read_exact +
u32::from_be_bytes). -/
def readU32 : List Nat → Option (Nat × List Nat)
  | b0 :: b1 :: b2 :: b3 :: rest =>
    some (b0 * 16777216 + b1 * 65536 + b2 * 256 + b3, rest)
  | _ => none

/-- server.rs save_to_disk, serialization part: entry count, then for each
entry the key length, key bytes, payload length and payload. -/
def encode_snapshot (files : Store) : List Nat :=
  u32be files.length ++ files.flatMap fun kf =>
    u32be kf.1.length ++ kf.1 ++ u32be (file_encode kf.2).length ++ file_encode kf.2

/-- The distinct failure points of load_from_disk's decode loop. -/
inductive LoadError where
  | eof
  | badUtf8
  | badDecode
deriving DecidableEq

/-- server.rs load_from_disk, decode loop: runs the announced number of
iterations, inserting each decoded entry; an entry inserted before a later
failure stays inserted, and bytes after the last entry are ignored. -/
def load_entries : Nat → List Nat → Store → Store × Option LoadError
  | 0, _, files => (files, none)
  | n + 1, buf, files =>
    match readU32 buf with
    | none => (files, some .eof)
    | some (file_id_len, buf1) =>
      match readBytes file_id_len buf1 with
      | none => (files, some .eof)
      | some (file_id_bytes, buf2) =>
        match from_utf8 file_id_bytes with
        | none => (files, some .badUtf8)
        | some file_id =>
          match readU32 buf2 with
          | none => (files, some .eof)
          | some (file_data_len, buf3) =>
            match readBytes file_data_len buf3 with
            | none => (files, some .eof)
            | some (file_data_bytes, buf4) =>
              match file_decode file_data_bytes with
              | none => (files, some .badDecode)
              | some file => load_entries n buf4 (storeInsert files file_id file)

/-- server.rs load_from_disk, decode of an existing snapshot file's
contents into the store. -/
def load_snapshot (content : List Nat) (files : Store) : Store × Option LoadError :=
  match readU32 content with
  | none => (files, some .eof)
  | some (file_count, rest) => load_entries file_count rest files

/-! ## Lock-discipline event traces (server.rs save_to_disk / export_files)

Each persisting function is abstracted to the sequence of lock and I/O
events it performs, in source order; a mutex guard's release happens where
the guard goes out of scope. -/

/-- Events performed by a persisting operation. -/
inductive PersistEv where
  | lockAcquire
  | mapCopy
  | lockRelease
  | dirCreate
  | serialize
  | diskWrite
deriving DecidableEq

/-- save_to_disk: the lock is taken and released inside the clone block,
before create_dir_all, the per-file encoding loop and the single write. -/
def save_to_disk_events (files : Store) : List PersistEv :=
  [.lockAcquire, .mapCopy, .lockRelease] ++ [.dirCreate] ++
    (files.map fun _ => .serialize) ++ [.diskWrite]

/-- export_files: the guard lives to the end of the function, so directory
creation and every per-file encode and write happen under the lock. -/
def export_files_events (files : Store) : List PersistEv :=
  [.lockAcquire, .dirCreate] ++
    (files.flatMap fun _ => [.serialize, .diskWrite]) ++ [.lockRelease]

/-- Is an event serialization or disk I/O? -/
def isIOEv : PersistEv → Bool
  | .dirCreate => true
  | .serialize => true
  | .diskWrite => true
  | _ => false

/-- Does some serialization or disk I/O event occur before the lock is
released? -/
def io_before_release : List PersistEv → Bool
  | [] => false
  | e :: rest =>
    if e = .lockRelease then false
    else if isIOEv e then true
    else io_before_release rest

/-! ## Round-trip lemmas for the payload codec -/

theorem decNat_encNatAux (fuel n : Nat) (hf : n ≤ fuel) (rest : List Nat) :
    decNat (encNatAux fuel n ++ rest) = some (n, rest) := by
  induction fuel generalizing n with
  | zero =>
    have h0 : n = 0 := by omega
    subst h0
    simp [encNatAux, decNat]
  | succ fuel ih =>
    rw [encNatAux]
    by_cases h : n < 128
    · simp [h, decNat]
    · simp only [if_neg h, List.cons_append, decNat, List.append_eq]
      rw [if_neg (by omega), ih (n / 128) (by omega)]
      simp only [Option.map_some', Option.some.injEq, Prod.mk.injEq]
      exact ⟨by omega, trivial⟩

theorem decNat_encNat (n : Nat) (rest : List Nat) :
    decNat (encNat n ++ rest) = some (n, rest) :=
  decNat_encNatAux n n le_rfl rest

theorem readBytes_append (bs rest : List Nat) :
    readBytes bs.length (bs ++ rest) = some (bs, rest) := by
  induction bs with
  | nil => rfl
  | cons b bs ih => simp [readBytes, ih]

theorem decBytes_encBytes (bs rest : List Nat) :
    decBytes (encBytes bs ++ rest) = some (bs, rest) := by
  simp [decBytes, encBytes, List.append_assoc, decNat_encNat, readBytes_append]

theorem decInt_encInt (i : Int) (rest : List Nat) :
    decInt (encInt i ++ rest) = some (i, rest) := by
  cases i <;> simp [encInt, decInt, decNat_encNat]

theorem decBool_encBool (b : Bool) (rest : List Nat) :
    decBool (encBool b ++ rest) = some (b, rest) := by
  cases b <;> rfl

theorem decOpt_encOpt {α : Type} {enc : α → List Nat}
    {dec : List Nat → Option (α × List Nat)}
    (h : ∀ x rest, dec (enc x ++ rest) = some (x, rest)) (o : Option α)
    (rest : List Nat) : decOpt dec (encOpt enc o ++ rest) = some (o, rest) := by
  cases o with
  | none => rfl
  | some x => simp [encOpt, decOpt, h]

theorem decListN_flatMap {α : Type} {enc : α → List Nat}
    {dec : List Nat → Option (α × List Nat)}
    (h : ∀ x rest, dec (enc x ++ rest) = some (x, rest)) (l : List α)
    (rest : List Nat) :
    decListN dec l.length (l.flatMap enc ++ rest) = some (l, rest) := by
  induction l generalizing rest with
  | nil => rfl
  | cons x xs ih => simp [List.flatMap_cons, decListN, List.append_assoc, h, ih]

theorem decList_encList {α : Type} {enc : α → List Nat}
    {dec : List Nat → Option (α × List Nat)}
    (h : ∀ x rest, dec (enc x ++ rest) = some (x, rest)) (l : List α)
    (rest : List Nat) : decList dec (encList enc l ++ rest) = some (l, rest) := by
  simp [decList, encList, List.append_assoc, decNat_encNat, decListN_flatMap h]

theorem decMultiplicity_enc (m : Multiplicity) (rest : List Nat) :
    decMultiplicity (encMultiplicity m ++ rest) = some (m, rest) := by
  simp [decMultiplicity, encMultiplicity, List.append_assoc, decNat_encNat,
    decOpt_encOpt decNat_encNat]

theorem decVariable_enc (v : Variable) (rest : List Nat) :
    decVariable (encVariable v ++ rest) = some (v, rest) := by
  simp [decVariable, encVariable, List.append_assoc, decBytes_encBytes,
    decOpt_encOpt decInt_encInt, decOpt_encOpt decBool_encBool]

theorem decMethod_enc (m : Method) (rest : List Nat) :
    decMethod (encMethod m ++ rest) = some (m, rest) := by
  simp [decMethod, encMethod, List.append_assoc, decBytes_encBytes,
    decInt_encInt, decOpt_encOpt decBool_encBool, decList_encList decVariable_enc]

theorem decRelationInfo_enc (r : RelationInfo) (rest : List Nat) :
    decRelationInfo (encRelationInfo r ++ rest) = some (r, rest) := by
  simp [decRelationInfo, encRelationInfo, List.append_assoc, decBytes_encBytes,
    decInt_encInt, decOpt_encOpt decMultiplicity_enc,
    decOpt_encOpt decBytes_encBytes]

theorem decRelationInfoList_enc (r : RelationInfoList) (rest : List Nat) :
    decRelationInfoList (encRelationInfoList r ++ rest) = some (r, rest) := by
  simp [decRelationInfoList, encRelationInfoList,
    decList_encList decRelationInfo_enc]

theorem decClass_enc (c : Class) (rest : List Nat) :
    decClass (encClass c ++ rest) = some (c, rest) := by
  simp [decClass, encClass, List.append_assoc, decBytes_encBytes,
    decOpt_encOpt decRelationInfoList_enc, decList_encList decVariable_enc,
    decList_encList decMethod_enc]

theorem decFileId_enc (f : FileId) (rest : List Nat) :
    decFileId (encFileId f ++ rest) = some (f, rest) := by
  simp [decFileId, encFileId, decBytes_encBytes]

theorem decFile_enc (f : File) (rest : List Nat) :
    decFile (file_encode f ++ rest) = some (f, rest) := by
  simp [decFile, file_encode, List.append_assoc, decInt_encInt,
    decOpt_encOpt decFileId_enc, decBytes_encBytes, decList_encList decClass_enc]

theorem file_decode_encode (f : File) : file_decode (file_encode f) = some f := by
  have h := decFile_enc f []
  rw [List.append_nil] at h
  simp [file_decode, h]

/-! ## Store lemmas -/

theorem storeLookup_append (a b : Store) (k : List Nat) :
    storeLookup (a ++ b) k =
      match storeLookup a k with
      | some v => some v
      | none => storeLookup b k := by
  induction a with
  | nil => rfl
  | cons kv rest ih =>
    obtain ⟨k', v'⟩ := kv
    by_cases hk : k' = k <;> simp [storeLookup, hk, ih]

theorem storeInsert_of_absent (s : Store) (k : List Nat) (v : File)
    (h : storeLookup s k = none) : storeInsert s k v = s ++ [(k, v)] := by
  induction s with
  | nil => rfl
  | cons kv rest ih =>
    obtain ⟨k', v'⟩ := kv
    by_cases hk : k' = k
    · simp [storeLookup, hk] at h
    · simp only [storeLookup, if_neg hk] at h
      simp [storeInsert, hk, ih h]

theorem storeLookup_insert_self (s : Store) (k : List Nat) (v : File) :
    storeLookup (storeInsert s k v) k = some v := by
  induction s with
  | nil => simp [storeInsert, storeLookup]
  | cons kv rest ih =>
    obtain ⟨k', v'⟩ := kv
    by_cases hk : k' = k <;> simp [storeInsert, storeLookup, hk, ih]

theorem storeRemove_of_absent (s : Store) (k : List Nat)
    (h : storeLookup s k = none) : storeRemove s k = s := by
  induction s with
  | nil => rfl
  | cons kv rest ih =>
    obtain ⟨k', v'⟩ := kv
    by_cases hk : k' = k
    · simp [storeLookup, hk] at h
    · simp only [storeLookup, if_neg hk] at h
      simp [storeRemove, hk, ih h]

/-! ## Snapshot round trip -/

theorem readU32_u32be (n : Nat) (h : n < 4294967296) (rest : List Nat) :
    readU32 (u32be n ++ rest) = some (n, rest) := by
  simp only [u32be, List.cons_append, List.nil_append, readU32,
    Option.some.injEq, Prod.mk.injEq]
  exact ⟨by omega, trivial⟩

theorem load_entries_encode (files : Store) (acc : Store) (rest : List Nat)
    (hk : ∀ kf ∈ files, utf8_valid kf.1 = true ∧ kf.1.length < 4294967296 ∧
      (file_encode kf.2).length < 4294967296) :
    load_entries files.length
      ((files.flatMap fun kf => u32be kf.1.length ++ kf.1 ++
        u32be (file_encode kf.2).length ++ file_encode kf.2) ++ rest) acc =
      (files.foldl (fun s kf => storeInsert s kf.1 kf.2) acc, none) := by
  induction files generalizing acc with
  | nil => rfl
  | cons kf fs ih =>
    obtain ⟨key, file⟩ := kf
    have hv : utf8_valid key = true := (hk _ (List.mem_cons_self _ _)).1
    have hkl : key.length < 4294967296 := (hk _ (List.mem_cons_self _ _)).2.1
    have hpl : (file_encode file).length < 4294967296 :=
      (hk _ (List.mem_cons_self _ _)).2.2
    have ihs := ih (storeInsert acc key file)
      fun kf hmem => hk _ (List.mem_cons_of_mem _ hmem)
    simp only [List.flatMap_cons, List.append_assoc, List.length_cons,
      List.foldl_cons]
    simp only [load_entries, readU32_u32be _ hkl, readBytes_append,
      from_utf8, hv, if_true, readU32_u32be _ hpl, file_decode_encode]
    simpa [List.append_assoc] using ihs

theorem foldl_storeInsert (files : Store) (acc : Store)
    (hdisj : ∀ kf ∈ files, storeLookup acc kf.1 = none)
    (hnodup : (files.map Prod.fst).Nodup) :
    files.foldl (fun s kf => storeInsert s kf.1 kf.2) acc = acc ++ files := by
  induction files generalizing acc with
  | nil => simp
  | cons kf fs ih =>
    obtain ⟨key, file⟩ := kf
    simp only [List.map_cons, List.nodup_cons] at hnodup
    simp only [List.foldl_cons]
    rw [storeInsert_of_absent _ _ _ (hdisj _ (List.mem_cons_self _ _))]
    rw [ih (acc ++ [(key, file)]) ?_ hnodup.2]
    · simp
    · intro kf hmem
      rw [storeLookup_append]
      rw [hdisj _ (List.mem_cons_of_mem _ hmem)]
      have hne : key ≠ kf.1 := by
        intro hcontra
        exact hnodup.1 (hcontra ▸ List.mem_map_of_mem Prod.fst hmem)
      simp [storeLookup, hne]

/-- C3, amended: snapshot completeness within the 32-bit framing — for
every store with distinct valid-UTF-8 keys, fewer than `2 ^ 32` entries,
and each key and encoded payload shorter than `2 ^ 32` bytes, decoding the
encoder's output on a fresh store reproduces the encoded store exactly
(same ids, same documents).  The bounds are necessary: the framing writes
every count and length `as u32`, and the counterexample below shows the
round trip failing once a length overflows. -/
theorem snapshot_roundtrip (files : Store) (hcount : files.length < 4294967296)
    (hk : ∀ kf ∈ files, utf8_valid kf.1 = true ∧ kf.1.length < 4294967296 ∧
      (file_encode kf.2).length < 4294967296)
    (hnodup : (files.map Prod.fst).Nodup) :
    load_snapshot (encode_snapshot files) [] = (files, none) := by
  have hblocks := load_entries_encode files [] [] hk
  rw [List.append_nil] at hblocks
  simp only [load_snapshot, encode_snapshot, readU32_u32be _ hcount, hblocks,
    foldl_storeInsert files [] (fun kf _ => rfl) hnodup]
  simp

/-! ## Snapshot decode soundness: only well-formed buffers are accepted -/

/-- A buffer is a well-formed sequence of snapshot entry blocks for the
given entries, ending in the (ignored) tail `rest`: each block is a
32-bit-length-prefixed valid-UTF-8 key followed by a
32-bit-length-prefixed payload that parses as the entry's document. -/
def BlocksWF : Store → List Nat → List Nat → Prop
  | [], buf, rest => buf = rest
  | (key, file) :: entries, buf, rest =>
    ∃ payload buf', key.length < 4294967296 ∧ payload.length < 4294967296 ∧
      utf8_valid key = true ∧ file_decode payload = some file ∧
      buf = u32be key.length ++ key ++ u32be payload.length ++ payload ++ buf' ∧
      BlocksWF entries buf' rest

/-- A buffer is a well-formed snapshot for the given entries: a 32-bit
big-endian entry count followed by that many well-formed blocks; bytes
after the last block are ignored by the decoder. -/
def SnapshotWF (buf : List Nat) (entries : Store) : Prop :=
  ∃ body rest, entries.length < 4294967296 ∧
    buf = u32be entries.length ++ body ∧ BlocksWF entries body rest

theorem readU32_sound (buf : List Nat) (k : Nat) (r : List Nat)
    (hb : ∀ b ∈ buf, b < 256) (h : readU32 buf = some (k, r)) :
    buf = u32be k ++ r ∧ k < 4294967296 := by
  match buf with
  | [] => simp [readU32] at h
  | [_] => simp [readU32] at h
  | [_, _] => simp [readU32] at h
  | [_, _, _] => simp [readU32] at h
  | b0 :: b1 :: b2 :: b3 :: rest =>
    have h0 : b0 < 256 := hb _ (by simp)
    have h1 : b1 < 256 := hb _ (by simp)
    have h2 : b2 < 256 := hb _ (by simp)
    have h3 : b3 < 256 := hb _ (by simp)
    simp only [readU32, Option.some.injEq, Prod.mk.injEq] at h
    obtain ⟨hk, hr⟩ := h
    subst hk hr
    refine ⟨?_, by omega⟩
    simp only [u32be, List.cons_append, List.nil_append, List.cons.injEq]
    exact ⟨by omega, by omega, by omega, by omega, trivial⟩

theorem readBytes_sound (n : Nat) (buf bs r : List Nat)
    (h : readBytes n buf = some (bs, r)) : buf = bs ++ r ∧ bs.length = n := by
  induction n generalizing buf bs r with
  | zero =>
    simp only [readBytes, Option.some.injEq, Prod.mk.injEq] at h
    simp [← h.1, ← h.2]
  | succ n ih =>
    match buf with
    | [] => simp [readBytes] at h
    | b :: rest =>
      simp only [readBytes] at h
      cases h2 : readBytes n rest with
      | none => rw [h2] at h; simp at h
      | some p =>
        obtain ⟨bs', r'⟩ := p
        rw [h2] at h
        simp only [Option.map_some', Option.some.injEq, Prod.mk.injEq] at h
        obtain ⟨hbs, hr⟩ := h
        obtain ⟨he, hl⟩ := ih rest bs' r' h2
        subst hbs hr
        simp [he, hl]

theorem from_utf8_some (bs x : List Nat) (h : from_utf8 bs = some x) :
    x = bs ∧ utf8_valid bs = true := by
  unfold from_utf8 at h
  cases hv : utf8_valid bs with
  | true => rw [hv, if_pos rfl] at h; exact ⟨(Option.some.injEq _ _ ▸ h).symm, rfl⟩
  | false => rw [hv] at h; simp at h

theorem load_entries_sound (n : Nat) (buf : List Nat) (st : Store)
    (hb : ∀ b ∈ buf, b < 256) (h : (load_entries n buf st).2 = none) :
    ∃ entries rest, BlocksWF entries buf rest ∧ entries.length = n := by
  induction n generalizing buf st with
  | zero => exact ⟨[], buf, rfl, rfl⟩
  | succ n ih =>
    rw [load_entries] at h
    cases h1 : readU32 buf with
    | none => rw [h1] at h; simp at h
    | some p1 =>
      obtain ⟨klen, buf1⟩ := p1
      rw [h1] at h
      simp only [] at h
      obtain ⟨hbuf1, hklen⟩ := readU32_sound buf klen buf1 hb h1
      have hb1 : ∀ b ∈ buf1, b < 256 := fun b hmem =>
        hb _ (hbuf1 ▸ List.mem_append_right _ hmem)
      cases h2 : readBytes klen buf1 with
      | none => rw [h2] at h; simp at h
      | some p2 =>
        obtain ⟨kb, buf2⟩ := p2
        rw [h2] at h
        simp only [] at h
        obtain ⟨hbuf2, hkb⟩ := readBytes_sound klen buf1 kb buf2 h2
        have hb2 : ∀ b ∈ buf2, b < 256 := fun b hmem =>
          hb1 _ (hbuf2 ▸ List.mem_append_right _ hmem)
        cases h3 : from_utf8 kb with
        | none => rw [h3] at h; simp at h
        | some key =>
          rw [h3] at h
          simp only [] at h
          obtain ⟨hkey, hvalid⟩ := from_utf8_some kb key h3
          cases h4 : readU32 buf2 with
          | none => rw [h4] at h; simp at h
          | some p4 =>
            obtain ⟨plen, buf3⟩ := p4
            rw [h4] at h
            simp only [] at h
            obtain ⟨hbuf3, hplen⟩ := readU32_sound buf2 plen buf3 hb2 h4
            have hb3 : ∀ b ∈ buf3, b < 256 := fun b hmem =>
              hb2 _ (hbuf3 ▸ List.mem_append_right _ hmem)
            cases h5 : readBytes plen buf3 with
            | none => rw [h5] at h; simp at h
            | some p5 =>
              obtain ⟨payload, buf4⟩ := p5
              rw [h5] at h
              simp only [] at h
              obtain ⟨hbuf4, hpl⟩ := readBytes_sound plen buf3 payload buf4 h5
              have hb4 : ∀ b ∈ buf4, b < 256 := fun b hmem =>
                hb3 _ (hbuf4 ▸ List.mem_append_right _ hmem)
              cases h6 : file_decode payload with
              | none => rw [h6] at h; simp at h
              | some file =>
                rw [h6] at h
                simp only [] at h
                obtain ⟨entries, rest, hwf, hlen⟩ :=
                  ih buf4 (storeInsert st key file) hb4 h
                refine ⟨(key, file) :: entries, rest,
                  ⟨payload, buf4, ?_, ?_, ?_, h6, ?_, hwf⟩, by simp [hlen]⟩
                · rw [hkey, hkb]; exact hklen
                · rw [hpl]; exact hplen
                · rw [hkey]; exact hvalid
                · subst hkey hkb hpl
                  rw [hbuf1, hbuf2, hbuf3, hbuf4]
                  simp [List.append_assoc]

theorem load_snapshot_sound (content : List Nat) (st : Store)
    (hb : ∀ b ∈ content, b < 256) (h : (load_snapshot content st).2 = none) :
    ∃ entries, SnapshotWF content entries := by
  rw [load_snapshot] at h
  cases h1 : readU32 content with
  | none => rw [h1] at h; simp at h
  | some p =>
    obtain ⟨file_count, rest0⟩ := p
    rw [h1] at h
    obtain ⟨hcontent, hcount⟩ := readU32_sound content file_count rest0 hb h1
    have hb0 : ∀ b ∈ rest0, b < 256 := fun b hmem =>
      hb _ (hcontent ▸ List.mem_append_right _ hmem)
    obtain ⟨entries, rest, hwf, hlen⟩ := load_entries_sound file_count rest0 st hb0 h
    exact ⟨entries, rest0, rest, hlen ▸ hcount, hlen ▸ hcontent, hwf⟩

/-! ## Concrete sample documents and stores used by witnesses -/

/-- A document whose file_id message is absent. -/
def fileNoId : File := ⟨0, 0, none, [], []⟩

/-- A document whose file_id is present but holds the empty id string. -/
def fileEmptyId : File := ⟨0, 0, some ⟨[]⟩, [], []⟩

/-- A small document with id "a". -/
def fileA : File := ⟨1, 2, some ⟨[97]⟩, [98], []⟩

/-- A document with id "bc" exercising every nested constructor. -/
def fileB : File := ⟨-7, 123456789, some ⟨[98, 99]⟩, [227, 129, 130],
  [⟨[99], [67],
    some ⟨[⟨[100], Relation.Composition, some ⟨0, some 5⟩, none, some [112], none⟩]⟩,
    [⟨[120], [105], some Visibility.Private, some true⟩],
    [⟨[109], [118], Visibility.Public, none, some false, [⟨[113], [], none, none⟩]⟩]⟩]⟩

/-- A two-document store. -/
def demoStore : Store := [([97], fileA), ([98, 99], fileB)]

/-- The id "a" repeated `2 ^ 32` times: a valid UTF-8 key whose byte
length overflows the snapshot framing's u32 key-length field. -/
def bigKey : List Nat := List.replicate 4294967296 97

/-- A store with one entry under `bigKey`. -/
def bigStore : Store := [(bigKey, fileA)]

/-- A run of the ASCII byte 97 is valid UTF-8 (auxiliary, fuelled). -/
theorem utf8_valid_aux_replicate (fuel n : Nat) (h : n ≤ fuel) :
    utf8_valid_aux fuel (List.replicate n 97) = true := by
  induction fuel generalizing n with
  | zero =>
    have h0 : n = 0 := by omega
    subst h0
    rfl
  | succ fuel ih =>
    cases n with
    | zero => rfl
    | succ m =>
      rw [List.replicate_succ]
      exact ih m (by omega)

/-- The big key is a legitimate Rust String: valid UTF-8. -/
theorem utf8_valid_bigKey : utf8_valid bigKey = true := by
  unfold utf8_valid bigKey
  rw [List.length_replicate]
  exact utf8_valid_aux_replicate _ _ le_rfl

/-- A leading byte that is neither 0 nor 1 fails the integer decoder. -/
theorem decInt_ge_two (b : Nat) (rest : List Nat) (h : 2 ≤ b) :
    decInt (b :: rest) = none := by
  match b, h with
  | b + 2, _ => rfl

/-- A run of 97-bytes does not parse as a Document payload. -/
theorem file_decode_replicate_a :
    file_decode (List.replicate 1633771873 97) = none := by
  rw [show (1633771873 : Nat) = 1633771872 + 1 by norm_num, List.replicate_succ]
  have hd : decInt (97 :: List.replicate 1633771872 97) = none :=
    decInt_ge_two 97 _ (by norm_num)
  rw [file_decode, decFile, hd]
  rfl

/-- The `as u32` write of the big key's length truncates it to 0. -/
theorem u32be_wraps : u32be 4294967296 = u32be 0 := by decide

/-- The big key split at its first four bytes (0x61616161 = 1633771873,
the number the decoder will misread as the payload length). -/
theorem bigKey_split : bigKey = 97 :: 97 :: 97 :: 97 ::
    (List.replicate 1633771873 97 ++ List.replicate 2661195419 97) := by
  rw [bigKey, show (4294967296 : Nat) = 4 + (1633771873 + 2661195419) by norm_num,
    List.replicate_add, List.replicate_add]
  rfl

/-- Reading the misread payload length consumes that many 97-bytes. -/
theorem readBytes_a_run (rest : List Nat) :
    readBytes 1633771873 (List.replicate 1633771873 97 ++ rest) =
      some (List.replicate 1633771873 97, rest) := by
  have h := readBytes_append (List.replicate 1633771873 97) rest
  rwa [List.length_replicate] at h

/-- One decode-loop iteration whose reads all succeed but whose payload
fails to parse ends the load with a badDecode error and no insertion. -/
theorem load_entries_step_badDecode (n : Nat) (buf : List Nat) (files : Store)
    (klen : Nat) (buf1 kb buf2 key : List Nat) (plen : Nat)
    (buf3 pb buf4 : List Nat)
    (h1 : readU32 buf = some (klen, buf1))
    (h2 : readBytes klen buf1 = some (kb, buf2))
    (h3 : from_utf8 kb = some key)
    (h4 : readU32 buf2 = some (plen, buf3))
    (h5 : readBytes plen buf3 = some (pb, buf4))
    (h6 : file_decode pb = none) :
    load_entries (n + 1) buf files = (files, some LoadError.badDecode) := by
  rw [load_entries, h1]
  simp only []
  rw [h2]
  simp only []
  rw [h3]
  simp only []
  rw [h4]
  simp only []
  rw [h5]
  simp only []
  rw [h6]

/-! ## Claim theorems -/

/-- C1, counterexample: a Save whose document carries an empty id string
(file_id present, id = "") succeeds with value = true and inserts the
entry under the empty key, so the claim's empty-id rejection is false. -/
theorem save_empty_id_succeeds :
    (save_class_diagram [] fileEmptyId).2.value = true ∧
    (save_class_diagram [] fileEmptyId).1 = [([], fileEmptyId)] ∧
    ([([], fileEmptyId)] : Store) ≠ ([] : Store) :=
  ⟨rfl, rfl, by decide⟩

/-- C1, amended: Save fails (value = false, message "File ID is required")
without mutating the store exactly when the file_id field is absent; when
file_id is present — even with an empty id string — Save inserts-or-
replaces the entry keyed by file_id.id and reports success, and the saved
document is then retrievable under that key. -/
theorem save_requires_file_id (files : Store) (file : File) :
    (file.file_id = none →
      save_class_diagram files file = (files, ⟨false, some msg_file_id_required⟩)) ∧
    (∀ fid, file.file_id = some fid →
      save_class_diagram files file =
        (storeInsert files fid.id file, ⟨true, some msg_saved⟩) ∧
      storeLookup (save_class_diagram files file).1 fid.id = some file) := by
  constructor
  · intro h
    simp [save_class_diagram, h]
  · intro fid h
    refine ⟨by simp [save_class_diagram, h], ?_⟩
    simp [save_class_diagram, h, storeLookup_insert_self]

/-- C1, witness for the amended theorem at concrete inputs. -/
theorem save_requires_file_id_witness :
    save_class_diagram [] fileNoId = ([], ⟨false, some msg_file_id_required⟩) ∧
    save_class_diagram [] fileA = ([([97], fileA)], ⟨true, some msg_saved⟩) ∧
    storeLookup (save_class_diagram [] fileA).1 [97] = some fileA :=
  ⟨(save_requires_file_id [] fileNoId).1 rfl,
   ((save_requires_file_id [] fileA).2 ⟨[97]⟩ rfl).1,
   ((save_requires_file_id [] fileA).2 ⟨[97]⟩ rfl).2⟩

/-- C2, counterexample: decoding a zero-length snapshot buffer is an
end-of-buffer error, not a successful empty-store load. -/
theorem load_empty_is_error :
    load_snapshot [] [] = ([], some LoadError.eof) ∧
    some LoadError.eof ≠ (none : Option LoadError) :=
  ⟨rfl, by decide⟩

/-- C2, amended: decoding a zero-length snapshot file fails with an
end-of-buffer error while reading the entry count, inserting nothing into
the store; only a missing snapshot file or persistence directory yields an
empty store without error (handled before decode in load_from_disk). -/
theorem load_empty_buffer_eof (st : Store) :
    load_snapshot [] st = (st, some LoadError.eof) := rfl

/-- C3, counterexample: on a store whose single entry is a legitimate
finite map binding — a distinct, valid-UTF-8 id of `2 ^ 32` bytes — the
round trip of the claim fails: the encoder writes the key length
`as u32`, truncating it to 0, so the decoder reads an empty key, then
misreads four key bytes as the payload length and fails to parse the
payload, returning an error and no entries instead of the store. -/
theorem snapshot_roundtrip_fails :
    utf8_valid bigKey = true ∧ (bigStore.map Prod.fst).Nodup ∧
    load_snapshot (encode_snapshot bigStore) [] = ([], some LoadError.badDecode) ∧
    (([], some LoadError.badDecode) : Store × Option LoadError) ≠
      (bigStore, none) := by
  have hklen : bigKey.length = 4294967296 := by
    rw [bigKey]
    exact List.length_replicate _ _
  have hreadU32big : ∀ rest : List Nat,
      readU32 (97 :: 97 :: 97 :: 97 :: rest) = some (1633771873, rest) := by
    intro rest
    simp [readU32]
  have hstepA : load_snapshot (encode_snapshot bigStore) [] =
      load_entries 1 (u32be bigKey.length ++ (bigKey ++
        (u32be (file_encode fileA).length ++ file_encode fileA))) [] := by
    simp only [encode_snapshot, bigStore, List.flatMap_cons, List.flatMap_nil,
      List.append_nil, List.length_cons, List.length_nil, List.append_assoc]
    simp only [load_snapshot, readU32_u32be 1 (by norm_num)]
  have hstepB : load_entries 1 (u32be bigKey.length ++ (bigKey ++
      (u32be (file_encode fileA).length ++ file_encode fileA))) [] =
      ([], some LoadError.badDecode) := by
    apply load_entries_step_badDecode
    · rw [hklen, u32be_wraps]
      exact readU32_u32be 0 (by norm_num) _
    · exact rfl
    · exact rfl
    · rw [bigKey_split]
      simp only [List.cons_append, List.append_assoc]
      exact hreadU32big _
    · exact readBytes_a_run _
    · exact file_decode_replicate_a
  exact ⟨utf8_valid_bigKey, by simp [bigStore], hstepA.trans hstepB,
    by simp [bigStore]⟩

/-- C3, witness: the round trip evaluated on a concrete two-document
store containing nested classes, attributes, methods and relations. -/
theorem snapshot_roundtrip_witness :
    demoStore.length < 4294967296 ∧
    (∀ kf ∈ demoStore, utf8_valid kf.1 = true ∧ kf.1.length < 4294967296 ∧
      (file_encode kf.2).length < 4294967296) ∧
    (demoStore.map Prod.fst).Nodup ∧
    load_snapshot (encode_snapshot demoStore) [] = (demoStore, none) :=
  ⟨by decide, by decide, by decide,
   snapshot_roundtrip demoStore (by decide) (by decide) (by decide)⟩

/-- C4: whenever a buffer of bytes is not a well-formed snapshot for any
store contents — some length field claims more bytes than remain, a length
field read itself runs past end-of-buffer, or a payload fails to parse as
a Document — the decode loop reports an error rather than succeeding. -/
theorem corrupt_snapshot_rejected (content : List Nat) (st : Store)
    (hb : ∀ b ∈ content, b < 256)
    (hcorrupt : ∀ entries, ¬ SnapshotWF content entries) :
    ∃ e, (load_snapshot content st).2 = some e := by
  cases hres : (load_snapshot content st).2 with
  | none =>
    obtain ⟨entries, hwf⟩ := load_snapshot_sound content st hb hres
    exact absurd hwf (hcorrupt entries)
  | some e => exact ⟨e, rfl⟩

/-- C4, witness: the buffer [0,0,0,1] announces one entry but ends, is
well-formed for no store contents, and decoding it reports an error. -/
theorem corrupt_snapshot_rejected_witness :
    (∀ b ∈ [0, 0, 0, 1], b < 256) ∧
    (∀ entries, ¬ SnapshotWF [0, 0, 0, 1] entries) ∧
    ∃ e, (load_snapshot [0, 0, 0, 1] ([] : Store)).2 = some e := by
  have hc : ∀ entries, ¬ SnapshotWF [0, 0, 0, 1] entries := by
    intro entries hwf
    obtain ⟨body, rest, hlen, heq, hblocks⟩ := hwf
    simp only [u32be, List.cons_append, List.nil_append, List.cons.injEq] at heq
    obtain ⟨h0, h1, h2, h3, hbody⟩ := heq
    have hone : entries.length = 1 := by omega
    cases entries with
    | nil => simp at hone
    | cons e es =>
      cases es with
      | cons e2 es2 => simp at hone
      | nil =>
        obtain ⟨key, file⟩ := e
        rw [← hbody] at hblocks
        obtain ⟨payload, buf', _, _, _, _, habs, _⟩ := hblocks
        simp [u32be] at habs
  exact ⟨by decide, hc, corrupt_snapshot_rejected _ [] (by decide) hc⟩

/-- C7: deleting an absent id is a successful "not removed" response (a
normal ProtoResult with value = false and message "File not found", not a
gRPC error status), it leaves the store unchanged, and a second delete of
the same id behaves identically — delete is idempotent on absent ids. -/
theorem delete_absent_idempotent (files : Store) (file_id : List Nat)
    (h : storeLookup files file_id = none) :
    (delete_class_diagram files file_id).2 = ⟨false, some msg_not_found⟩ ∧
    (delete_class_diagram files file_id).1 = files ∧
    (delete_class_diagram (delete_class_diagram files file_id).1 file_id).2 =
      ⟨false, some msg_not_found⟩ ∧
    (delete_class_diagram (delete_class_diagram files file_id).1 file_id).1 =
      files := by
  have hrem := storeRemove_of_absent files file_id h
  simp [delete_class_diagram, h, hrem]

/-- C7, witness: two deletes of the absent id "a" on a store holding only
id "b". -/
theorem delete_absent_idempotent_witness :
    storeLookup [([98], fileA)] [97] = none ∧
    (delete_class_diagram [([98], fileA)] [97]).2 = ⟨false, some msg_not_found⟩ ∧
    (delete_class_diagram [([98], fileA)] [97]).1 = [([98], fileA)] ∧
    (delete_class_diagram (delete_class_diagram [([98], fileA)] [97]).1 [97]).2 =
      ⟨false, some msg_not_found⟩ ∧
    (delete_class_diagram (delete_class_diagram [([98], fileA)] [97]).1 [97]).1 =
      [([98], fileA)] := by
  have h : storeLookup [([98], fileA)] [97] = none := by decide
  have hthm := delete_absent_idempotent [([98], fileA)] [97] h
  exact ⟨h, hthm.1, hthm.2.1, hthm.2.2.1, hthm.2.2.2⟩

/-- C8, counterexample: export_files persists every document to disk while
still holding the store lock — on a one-document store its event trace
performs directory creation, serialization and a disk write before the
lock release, so the claim is false for this persisting operation. -/
theorem export_io_under_lock :
    io_before_release (export_files_events [([97], fileA)]) = true :=
  rfl

/-- C8, amended: save_to_disk — the checkpoint path used by the periodic
timer and the shutdown snapshot — holds the lock only for the deep copy
and releases it before any serialization or disk I/O; export_files instead
holds the lock across directory creation and all per-document encoding and
writes. -/
theorem lock_release_discipline (files : Store) :
    io_before_release (save_to_disk_events files) = false ∧
    io_before_release (export_files_events files) = true :=
  ⟨rfl, rfl⟩

/-- C5, counterexample: for a variable, an absent visibility key does not
translate to the NON_MODIFIER code — it translates to an absent
visibility — while an unrecognized string such as "BOGUS" does translate
to NON_MODIFIER, so the two inputs do not both yield NON_MODIFIER. -/
theorem absent_visibility_stays_absent :
    (json_to_proto_variable (Json.obj [])).map Variable.visibility =
      .ok (none : Option Int) ∧
    (none : Option Int) ≠ some Visibility.NonModifier ∧
    (json_to_proto_variable (Json.obj [(kw_visibility, Json.str sBOGUS)])).map
      Variable.visibility = .ok (some Visibility.NonModifier) :=
  ⟨rfl, by decide, rfl⟩

/-- C5, amended: an unrecognized visibility string translates to the
NON_MODIFIER code; an absent visibility key translates to an absent
visibility for variables — which the model-to-JSON translation re-emits as
the string "NON_MODIFIER" — and directly to NON_MODIFIER for methods; a
relation string "COMPOSITION" translates to the COMPOSITION code and is
re-emitted as the literal string "COMPOSITION". -/
theorem visibility_defaulting :
    (∀ j s, j.get kw_visibility = some (Json.str s) → s ≠ sPUBLIC →
      s ≠ sPRIVATE → s ≠ sPROTECTED →
      (json_to_proto_variable j).map Variable.visibility =
        .ok (some Visibility.NonModifier)) ∧
    (∀ j, j.get kw_visibility = none →
      (json_to_proto_variable j).map Variable.visibility =
        .ok (none : Option Int)) ∧
    (∀ v, v.visibility = none →
      (proto_variable_to_json v).get kw_visibility =
        some (Json.str sNON_MODIFIER)) ∧
    (∀ j, j.get kw_visibility = none →
      (json_to_proto_method j).map Method.visibility =
        .ok Visibility.NonModifier) ∧
    (∀ j, j.get kw_relation = some (Json.str sCOMPOSITION) →
      (json_to_proto_relation j).map RelationInfo.relation =
        .ok Relation.Composition) ∧
    (∀ r, r.relation = Relation.Composition →
      (proto_relation_to_json r).get kw_relation =
        some (Json.str sCOMPOSITION)) := by
  refine ⟨?_, ?_, ?_, ?_, ?_, ?_⟩
  · intro j s hget h1 h2 h3
    simp [json_to_proto_variable, hget, Json.as_str, h1, h2, h3, Except.map]
  · intro j hget
    simp [json_to_proto_variable, hget, Except.map]
  · intro v hv
    have e1 : (kw_visibility == kw_name) = false := by decide
    have e2 : (kw_visibility == kw_type) = false := by decide
    have e3 : (kw_visibility == kw_visibility) = true := by decide
    simp [proto_variable_to_json, hv, Json.get, List.lookup, e1, e2, e3]
  · intro j hget
    simp [json_to_proto_method, hget, Except.map]
  · intro j hget
    have d1 : sCOMPOSITION ≠ sINHERITANCE := by decide
    have d2 : sCOMPOSITION ≠ sIMPLEMENTATION := by decide
    have d3 : sCOMPOSITION ≠ sASSOCIATION := by decide
    have d4 : sCOMPOSITION ≠ sAGGREGATION := by decide
    simp [json_to_proto_relation, hget, Json.as_str, d1, d2, d3, d4, Except.map]
  · intro r hr
    have c1 : ¬(Relation.Composition = Relation.Inheritance) := by decide
    have c2 : ¬(Relation.Composition = Relation.Implementation) := by decide
    have c3 : ¬(Relation.Composition = Relation.Association) := by decide
    have c4 : ¬(Relation.Composition = Relation.Aggregation) := by decide
    have e1 : (kw_relation == kw_target_class_id) = false := by decide
    have e2 : (kw_relation == kw_relation) = true := by decide
    simp [proto_relation_to_json, hr, Json.get, List.lookup, c1, c2, c3, c4,
      e1, e2]

/-- C5, witness: the amended theorem at "BOGUS", at an absent key, at a
visibility-free variable and method, and at a COMPOSITION relation. -/
theorem visibility_defaulting_witness :
    (json_to_proto_variable (Json.obj [(kw_visibility, Json.str sBOGUS)])).map
      Variable.visibility = .ok (some Visibility.NonModifier) ∧
    (json_to_proto_variable (Json.obj [])).map Variable.visibility =
      .ok (none : Option Int) ∧
    (proto_variable_to_json ⟨[], [], none, none⟩).get kw_visibility =
      some (Json.str sNON_MODIFIER) ∧
    (json_to_proto_method (Json.obj [])).map Method.visibility =
      .ok Visibility.NonModifier ∧
    (json_to_proto_relation (Json.obj [(kw_relation, Json.str sCOMPOSITION)])).map
      RelationInfo.relation = .ok Relation.Composition ∧
    (proto_relation_to_json ⟨[], Relation.Composition, none, none, none, none⟩).get
      kw_relation = some (Json.str sCOMPOSITION) :=
  ⟨visibility_defaulting.1 _ sBOGUS rfl (by decide) (by decide) (by decide),
   visibility_defaulting.2.1 _ rfl,
   visibility_defaulting.2.2.1 _ rfl,
   visibility_defaulting.2.2.2.1 _ rfl,
   visibility_defaulting.2.2.2.2.1 _ rfl,
   visibility_defaulting.2.2.2.2.2 _ rfl⟩

/-- C6: a variable's is_static is tri-state — translating a JSON variable
without an is_static key yields an absent is_static, an explicit false
yields present-false, and the model-to-JSON translation emits an absent
is_static as JSON null (never as false) and a present value as that
boolean. -/
theorem is_static_absent_roundtrip :
    (∀ j, j.get kw_is_static = none →
      (json_to_proto_variable j).map Variable.is_static =
        .ok (none : Option Bool)) ∧
    (∀ j, j.get kw_is_static = some (Json.bool false) →
      (json_to_proto_variable j).map Variable.is_static = .ok (some false)) ∧
    (∀ v, v.is_static = none →
      (proto_variable_to_json v).get kw_is_static = some Json.null) ∧
    (∀ v b, v.is_static = some b →
      (proto_variable_to_json v).get kw_is_static = some (Json.bool b)) ∧
    Json.null ≠ Json.bool false := by
  have e1 : (kw_is_static == kw_name) = false := by decide
  have e2 : (kw_is_static == kw_type) = false := by decide
  have e3 : (kw_is_static == kw_visibility) = false := by decide
  have e4 : (kw_is_static == kw_is_static) = true := by decide
  refine ⟨?_, ?_, ?_, ?_, fun h => Json.noConfusion h⟩
  · intro j hget
    simp [json_to_proto_variable, hget, Except.map]
  · intro j hget
    simp [json_to_proto_variable, hget, Json.as_bool, Except.map]
  · intro v hv
    simp [proto_variable_to_json, hv, jsonOfOptBool, Json.get, List.lookup,
      e1, e2, e3, e4]
  · intro v b hv
    simp [proto_variable_to_json, hv, jsonOfOptBool, Json.get, List.lookup,
      e1, e2, e3, e4]

/-- C6, witness: the theorem at a keyless variable object, an explicit
false, and concrete model variables with absent and present is_static. -/
theorem is_static_absent_roundtrip_witness :
    (json_to_proto_variable (Json.obj [])).map Variable.is_static =
      .ok (none : Option Bool) ∧
    (json_to_proto_variable (Json.obj [(kw_is_static, Json.bool false)])).map
      Variable.is_static = .ok (some false) ∧
    (proto_variable_to_json ⟨[], [], none, none⟩).get kw_is_static =
      some Json.null ∧
    (proto_variable_to_json ⟨[], [], none, some true⟩).get kw_is_static =
      some (Json.bool true) ∧
    Json.null ≠ Json.bool false :=
  ⟨is_static_absent_roundtrip.1 _ rfl,
   is_static_absent_roundtrip.2.1 _ rfl,
   is_static_absent_roundtrip.2.2.1 _ rfl,
   is_static_absent_roundtrip.2.2.2.1 _ true rfl,
   is_static_absent_roundtrip.2.2.2.2⟩

/-- Characterization of the `as i32` wrap: congruent modulo `2 ^ 32` and
landing in the signed 32-bit range. -/
theorem i64_to_i32_spec (n : Int) :
    i64_to_i32 n % 4294967296 = n % 4294967296 ∧
    -2147483648 ≤ i64_to_i32 n ∧ i64_to_i32 n < 2147483648 := by
  by_cases hc : n % 4294967296 < 2147483648
  · simp only [i64_to_i32, if_pos hc]
    omega
  · simp only [i64_to_i32, if_neg hc]
    omega

/-- C9: the JSON translation reads created_at and last_modified with
as_i64 and casts `as i32`: within the signed 64-bit range the stored
timestamp is congruent to the input modulo `2 ^ 32` and lies in the signed
32-bit range, so any input outside that range is silently altered; a
missing timestamp becomes 0. -/
theorem timestamps_wrap_to_i32 (j : Json) (n : Int) :
    ((j.get kw_created_at = some (Json.num n) ∧
       -9223372036854775808 ≤ n ∧ n < 9223372036854775808) →
      (json_to_proto_file j).map File.created_at = .ok (i64_to_i32 n) ∧
      i64_to_i32 n % 4294967296 = n % 4294967296 ∧
      -2147483648 ≤ i64_to_i32 n ∧ i64_to_i32 n < 2147483648 ∧
      ((n < -2147483648 ∨ 2147483648 ≤ n) → i64_to_i32 n ≠ n)) ∧
    ((j.get kw_last_modified = some (Json.num n) ∧
       -9223372036854775808 ≤ n ∧ n < 9223372036854775808) →
      (json_to_proto_file j).map File.last_modified = .ok (i64_to_i32 n)) ∧
    (j.get kw_created_at = none →
      (json_to_proto_file j).map File.created_at = .ok 0) ∧
    (j.get kw_last_modified = none →
      (json_to_proto_file j).map File.last_modified = .ok 0) := by
  have h0 : i64_to_i32 0 = 0 := by decide
  refine ⟨?_, ?_, ?_, ?_⟩
  · rintro ⟨hget, hlo, hhi⟩
    have hcond : -9223372036854775808 ≤ n ∧ n < 9223372036854775808 := ⟨hlo, hhi⟩
    have hspec := i64_to_i32_spec n
    refine ⟨?_, hspec.1, hspec.2.1, hspec.2.2, ?_⟩
    · simp [json_to_proto_file, hget, Json.as_i64, hcond, Except.map]
    · intro houtside
      omega
  · rintro ⟨hget, hlo, hhi⟩
    have hcond : -9223372036854775808 ≤ n ∧ n < 9223372036854775808 := ⟨hlo, hhi⟩
    simp [json_to_proto_file, hget, Json.as_i64, hcond, Except.map]
  · intro hget
    simp [json_to_proto_file, hget, Except.map, h0]
  · intro hget
    simp [json_to_proto_file, hget, Except.map, h0]

/-- C9, witness: the timestamp `2 ^ 32` (legal i64, outside i32) wraps to
0 and is altered; an absent timestamp becomes 0. -/
theorem timestamps_wrap_to_i32_witness :
    (json_to_proto_file (Json.obj [(kw_created_at, Json.num 4294967296)])).map
      File.created_at = .ok (i64_to_i32 4294967296) ∧
    i64_to_i32 (4294967296 : Int) ≠ 4294967296 ∧
    (json_to_proto_file (Json.obj [])).map File.created_at = .ok 0 := by
  have h := (timestamps_wrap_to_i32 (Json.obj [(kw_created_at, Json.num 4294967296)])
    4294967296).1 ⟨rfl, by decide, by decide⟩
  exact ⟨h.1, h.2.2.2.2 (Or.inr (by decide)),
    (timestamps_wrap_to_i32 (Json.obj []) 0).2.2.1 rfl⟩

/-- json_to_proto_multiplicity never returns an error. -/
theorem json_to_proto_multiplicity_ok (j : Json) :
    (json_to_proto_multiplicity j).isOk = true := rfl

/-- json_to_proto_variable never returns an error. -/
theorem json_to_proto_variable_ok (j : Json) :
    (json_to_proto_variable j).isOk = true := rfl

/-- json_to_proto_method never returns an error. -/
theorem json_to_proto_method_ok (j : Json) :
    (json_to_proto_method j).isOk = true := rfl

/-- json_to_proto_relation never returns an error. -/
theorem json_to_proto_relation_ok (j : Json) :
    (json_to_proto_relation j).isOk = true := rfl

/-- json_to_proto_class never returns an error. -/
theorem json_to_proto_class_ok (j : Json) :
    (json_to_proto_class j).isOk = true := rfl

/-- json_to_proto_file never returns an error. -/
theorem json_to_proto_file_ok (j : Json) :
    (json_to_proto_file j).isOk = true := rfl

/-- filter_map over a conversion that always succeeds drops nothing. -/
theorem filterMap_toOption_length {β : Type} (f : Json → Except (List Nat) β)
    (hf : ∀ x, (f x).isOk = true) (l : List Json) :
    (l.filterMap fun x => (f x).toOption).length = l.length := by
  induction l with
  | nil => rfl
  | cons x xs ih =>
    cases hfx : f x with
    | error e =>
      have := hf x
      rw [hfx] at this
      simp [Except.isOk, Except.toBool] at this
    | ok b =>
      simp only [Except.toOption] at ih
      simp only [List.filterMap_cons, hfx, Except.toOption, List.length_cons, ih]

/-- C10: every JSON-to-model conversion returns Ok on every JSON value
(including non-objects), so the filter_map drop branches are unreachable:
whenever a containing array is present, the converted sequence has exactly
as many entries as the array. -/
theorem json_conversions_total :
    (∀ j, (json_to_proto_file j).isOk = true) ∧
    (∀ j, (json_to_proto_class j).isOk = true) ∧
    (∀ j, (json_to_proto_variable j).isOk = true) ∧
    (∀ j, (json_to_proto_method j).isOk = true) ∧
    (∀ j, (json_to_proto_relation j).isOk = true) ∧
    (∀ j, (json_to_proto_multiplicity j).isOk = true) ∧
    (∀ j cs, j.get kw_classes = some (Json.arr cs) →
      (json_to_proto_file j).map (fun f => f.classes.length) = .ok cs.length) ∧
    (∀ j xs, j.get kw_attributes = some (Json.arr xs) →
      (json_to_proto_class j).map (fun c => c.attributes.length) = .ok xs.length) ∧
    (∀ j xs, j.get kw_methods = some (Json.arr xs) →
      (json_to_proto_class j).map (fun c => c.methods.length) = .ok xs.length) ∧
    (∀ j xs, j.get kw_parameters = some (Json.arr xs) →
      (json_to_proto_method j).map (fun m => m.parameters.length) = .ok xs.length) ∧
    (∀ j rels xs, j.get kw_relations = some rels →
      rels.get kw_relation_infos = some (Json.arr xs) →
      (json_to_proto_class j).map
        (fun c => (c.relations.map fun r => r.relation_infos.length).getD 0) =
        .ok xs.length) := by
  refine ⟨json_to_proto_file_ok, json_to_proto_class_ok, json_to_proto_variable_ok,
    json_to_proto_method_ok, json_to_proto_relation_ok, json_to_proto_multiplicity_ok,
    ?_, ?_, ?_, ?_, ?_⟩
  · intro j cs hget
    simp [json_to_proto_file, hget, Json.as_array, Except.map,
      filterMap_toOption_length _ json_to_proto_class_ok]
  · intro j xs hget
    simp [json_to_proto_class, hget, Json.as_array, Except.map,
      filterMap_toOption_length _ json_to_proto_variable_ok]
  · intro j xs hget
    simp [json_to_proto_class, hget, Json.as_array, Except.map,
      filterMap_toOption_length _ json_to_proto_method_ok]
  · intro j xs hget
    simp [json_to_proto_method, hget, Json.as_array, Except.map,
      filterMap_toOption_length _ json_to_proto_variable_ok]
  · intro j rels xs h1 h2
    simp [json_to_proto_class, h1, h2, Json.as_array, Except.map,
      filterMap_toOption_length _ json_to_proto_relation_ok]

/-- C10, witness: a classes array with two non-object entries converts to
exactly two classes, and a one-float attributes array to one variable. -/
theorem json_conversions_total_witness :
    (json_to_proto_file (Json.obj [(kw_classes,
      Json.arr [Json.null, Json.bool true])])).isOk = true ∧
    (json_to_proto_file (Json.obj [(kw_classes,
      Json.arr [Json.null, Json.bool true])])).map (fun f => f.classes.length) =
      .ok 2 ∧
    (json_to_proto_class (Json.obj [(kw_attributes, Json.arr [Json.floatNum])])).map
      (fun c => c.attributes.length) = .ok 1 :=
  ⟨json_conversions_total.1 _,
   json_conversions_total.2.2.2.2.2.2.1 _ [Json.null, Json.bool true] rfl,
   json_conversions_total.2.2.2.2.2.2.2.1 _ [Json.floatNum] rfl⟩

end EDEA
